import Mathlib

/-
Verification of the identity/channel resolution and event-reconciliation
core of the ao-chat-client repository (src/chat.rs), against its
natural-language specification.

The embedding follows src/chat.rs:
  * `Channel`, `ChannelType`, `Message`, `ResolvedChannel`, `ResolvedMessage`
    mirror the nadylib/chat data model used by the client.
  * `ChatState` mirrors the fields of `ChatState` (the `BiHashMap` is a list
    of (id, name) pairs, the pending-lookup `HashMap` a list of
    (name, token) pairs).
  * Operations that can panic in Rust (`.unwrap()`, `panic!`) are modelled
    with `Option` / an `OpResult` that carries a `fatal` outcome; the
    effects (UI updates, outbound packets) emitted before the panic are
    recorded in program order.
  * Each operation takes the send outcome of the protocol collaborator as an
    oracle `sendOk : Packet → Bool`; sites written `let _ = send(..)` in the
    source ignore it, the `.unwrap()` sites in `send_message` turn a failed
    send into a fatal outcome.
  * For the concurrency claims, `lookup_user` is embedded as a small-step
    task machine (`TaskState`, `taskStep`): `tokio::spawn` on the default
    multi-threaded runtime runs tasks in parallel, so each lock-guarded
    critical section of `lookup_user` (the `user_lookup` read, the
    `pending_lookups` read, the `pending_lookups` write-insert, the packet
    send) is one atomic step, and steps of distinct tasks interleave
    arbitrarily (`Choice`, `stepC`, `run`). The `ClientLookup` branch of
    `chat_task` is `procLookupEv`; firing a `Notify` wakes exactly the
    tasks waiting on that `Notify` instance (tokens stand for `Arc<Notify>`
    identities).
-/

namespace AO

/-- Channel variants, as in the nadylib `Channel` type used by chat.rs:
`Group { id, name: Option<String> }`, `PrivateChannel(u32)`, `Tell(u32)`,
`Vicinity`. -/
inductive Channel where
  | group (id : Nat) (name : Option String)
  | privateChannel (id : Nat)
  | tell (id : Nat)
  | vicinity
deriving DecidableEq, Repr

/-- The `ChannelType` enum of chat.rs. -/
inductive ChannelType where
  | group
  | privateChannel
  | tell
  | vicinity
deriving DecidableEq, Repr

/-- The `Message` model: optional sender id, channel, text, protocol tag. -/
structure Message where
  sender : Option Nat
  channel : Channel
  text : String
  send_tag : String
deriving DecidableEq, Repr

/-- `ResolvedChannel` of chat.rs: id, display name, and channel type. -/
structure ResolvedChannel where
  id : Nat
  name : String
  kind : ChannelType
deriving DecidableEq, Repr

/-- `ResolvedMessage` of chat.rs: resolved sender name (if any), resolved
channel, text. -/
structure ResolvedMessage where
  sender : Option String
  channel : ResolvedChannel
  text : String
deriving DecidableEq, Repr

/-- Outbound packets sent by the core (the packet kinds used in chat.rs). -/
inductive Packet where
  | clientLookup (character_name : String)
  | outPrivgrpInvite (character_id : Nat)
  | outPrivgrpKick (character_id : Nat)
  | privgrpPart (channel : Channel)
  | msgPrivate (message : Message)
  | groupMessage (message : Message)
  | privgrpMessage (message : Message)
deriving DecidableEq, Repr

/-- The `UiUpdate` enum of chat.rs. -/
inductive UiUpdate where
  | message (m : ResolvedMessage)
  | invite (c : ResolvedChannel)
  | kick (c : ResolvedChannel)
  | leave (u : String) (c : ResolvedChannel)
deriving DecidableEq, Repr

/-- An externally visible effect of an operation, in program order: a UI
update pushed on the `ui_update_sender` channel, or a packet handed to the
socket send handle. -/
inductive Effect where
  | ui (u : UiUpdate)
  | send (p : Packet)
deriving DecidableEq, Repr

/-- The shared `ChatState` of chat.rs. The `BiHashMap<u32, String>` is a
list of (id, name) pairs, `pending_lookups` a list of (name, token) pairs
where the token identifies the `Arc<Notify>` instance. -/
structure ChatState where
  channels : List Channel
  past_invites : List Channel
  user_lookup : List (Nat × String)
  current_user : Nat
  pending_lookups : List (String × Nat)
deriving DecidableEq, Repr

/-- `user_lookup.get_by_left(&id)`: the name mapped to an id. -/
def getByLeft : List (Nat × String) → Nat → Option String
  | [], _ => none
  | (j, nm) :: rest, i => if j = i then some nm else getByLeft rest i

/-- `user_lookup.get_by_right(&name)`: the id mapped to a name. -/
def getByRight : List (Nat × String) → String → Option Nat
  | [], _ => none
  | (j, nm) :: rest, n => if nm = n then some j else getByRight rest n

/-- `BiHashMap::insert`: installs the pair (id, name), removing any pair
that collides on either side. -/
def bimapInsert (i : Nat) (n : String) (l : List (Nat × String)) :
    List (Nat × String) :=
  (i, n) :: l.filter (fun p => !(p.1 == i) && !(p.2 == n))

/-- Lookup in the pending-lookups map (`HashMap::get`). -/
def pendingGet : List (String × Nat) → String → Option Nat
  | [], _ => none
  | (m, t) :: rest, n => if m = n then some t else pendingGet rest n

/-- Insert into the pending-lookups map (`HashMap::insert`: replaces any
existing entry for the key). -/
def pendingInsert (n : String) (t : Nat) (l : List (String × Nat)) :
    List (String × Nat) :=
  (n, t) :: l.filter (fun p => !(p.1 == n))

/-- Remove a key from the pending-lookups map (`HashMap::remove`). -/
def pendingRemove (n : String) (l : List (String × Nat)) :
    List (String × Nat) :=
  l.filter (fun p => !(p.1 == n))

/-- The predicate of the dedup checks in `send_tell` and the `MsgPrivate`
handler: is this channel `Tell(i)`? -/
def isTell (i : Nat) : Channel → Bool
  | .tell j => j == i
  | _ => false

/-- The predicate of the `find` in `send_message`: is this channel a
`Group` with the given id? -/
def isGroupWithId (i : Nat) : Channel → Bool
  | .group j _ => j == i
  | _ => false

/-- The `find_map` of `ResolvedChannel::new` for a nameless `Group`: scan
the registry for the first `Group` with the same id and take its name,
unwrapped. Returns `none` both when no `Group` with the id is registered
(the outer `.unwrap()` panics) and when the first registered one also has
no name (`g.name.as_ref().unwrap()` panics). -/
def firstGroupName : List Channel → Nat → Option String
  | [], _ => none
  | Channel.group j nm :: rest, i => if j = i then nm else firstGroupName rest i
  | _ :: rest, i => firstGroupName rest i

/-- `ResolvedChannel::new`. `none` models a panic (`.unwrap()` on a missing
identity or a missing group name). -/
def resolveChannel (st : ChatState) : Channel → Option ResolvedChannel
  | .group i nm? =>
      (match nm? with
        | some nm => some nm
        | none => firstGroupName st.channels i).map
        fun nm => ⟨i, nm, ChannelType.group⟩
  | .privateChannel i =>
      (getByLeft st.user_lookup i).map fun nm => ⟨i, nm, ChannelType.privateChannel⟩
  | .tell i =>
      (getByLeft st.user_lookup i).map fun nm => ⟨i, nm, ChannelType.tell⟩
  | .vicinity => some ⟨0, "Vicinity", ChannelType.vicinity⟩

/-- `ResolvedMessage::new`. `none` models the panic when the sender id is
not in the identity cache, or when the channel fails to resolve. -/
def resolveMessage (st : ChatState) (m : Message) : Option ResolvedMessage :=
  match m.sender with
  | none => (resolveChannel st m.channel).map fun rc => ⟨none, rc, m.text⟩
  | some i =>
      match getByLeft st.user_lookup i with
      | none => none
      | some nm => (resolveChannel st m.channel).map fun rc => ⟨some nm, rc, m.text⟩

/-- Outcome of an operation: normal completion with the new shared state
and the effects emitted in order, or a panic (`fatal`) with the effects
emitted before the panic. -/
inductive OpResult where
  | ok (st : ChatState) (effects : List Effect)
  | fatal (effects : List Effect)
deriving DecidableEq, Repr

/-- The effects emitted by an operation, panic or not. -/
def OpResult.effects : OpResult → List Effect
  | .ok _ e => e
  | .fatal e => e

/-- The resulting shared state, when the operation did not panic. -/
def OpResult.stateOf : OpResult → Option ChatState
  | .ok st _ => some st
  | .fatal _ => none

/-- The dedup check of `send_tell`: is a `Tell` for this peer already
registered? -/
def hasTell (i : Nat) (chs : List Channel) : Bool :=
  chs.any (isTell i)

/-- The body of `ChatState::send_tell` after `lookup_user` returned `r`
(the code from `if let Some(id) = user_id` on): build the message, resolve
it (panics if the current user or the peer is not in the cache), emit the
UI self-echo, register `Tell(id)` if absent, send the `MsgPrivatePacket`
with `let _ =` (the send outcome is ignored). -/
def sendTellCont (st : ChatState) (r : Option Nat) (text : String)
    (_sendOk : Packet → Bool) : OpResult :=
  match r with
  | none => .ok st []
  | some id =>
      let msg : Message := ⟨some st.current_user, Channel.tell id, text, "\x00"⟩
      match resolveMessage st msg with
      | none => .fatal []
      | some rm =>
          let chans :=
            if hasTell id st.channels then st.channels
            else st.channels ++ [msg.channel]
          .ok { st with channels := chans }
            [Effect.ui (UiUpdate.message rm), Effect.send (Packet.msgPrivate msg)]

/-- The body of `ChatState::invite` after `lookup_user` returned `r`: on
`Some(id)` send an `OutPrivgrpInvitePacket` with `let _ =`, otherwise do
nothing. -/
def inviteCont (st : ChatState) (r : Option Nat)
    (_sendOk : Packet → Bool) : OpResult :=
  match r with
  | none => .ok st []
  | some id => .ok st [Effect.send (Packet.outPrivgrpInvite id)]

/-- The body of `ChatState::kick` after `lookup_user` returned `r`. -/
def kickCont (st : ChatState) (r : Option Nat)
    (_sendOk : Packet → Bool) : OpResult :=
  match r with
  | none => .ok st []
  | some id => .ok st [Effect.send (Packet.outPrivgrpKick id)]

/-- The body of `ChatState::leave` after `lookup_user` returned `r`: on
`Some(id)` send a `PrivgrpPartPacket` for `PrivateChannel(id)` with
`let _ =`. -/
def leaveCont (st : ChatState) (r : Option Nat)
    (_sendOk : Packet → Bool) : OpResult :=
  match r with
  | none => .ok st []
  | some id =>
      .ok st [Effect.send (Packet.privgrpPart (Channel.privateChannel id))]

/-- `ChatState::send_message`: select the wire channel from the resolved
channel (for `Group`, the first registered `Group` with that id —
`.unwrap()` panics when none is registered), build the message, and
dispatch. The three sends here are `.unwrap()`ed: a failed send is a
panic. The `Tell` arm emits the UI self-echo before sending; the
`Vicinity` arm is `panic!("impossible")`. -/
def sendMessage (st : ChatState) (rc : ResolvedChannel) (text : String)
    (sendOk : Packet → Bool) : OpResult :=
  let chan? : Option Channel :=
    match rc.kind with
    | .vicinity => some Channel.vicinity
    | .tell => some (Channel.tell rc.id)
    | .privateChannel => some (Channel.privateChannel rc.id)
    | .group => st.channels.find? (isGroupWithId rc.id)
  match chan? with
  | none => .fatal []
  | some channel =>
      let msg : Message := ⟨some st.current_user, channel, text, "\x00"⟩
      match channel with
      | .group _ _ =>
          let pkt := Packet.groupMessage msg
          if sendOk pkt then .ok st [Effect.send pkt]
          else .fatal [Effect.send pkt]
      | .tell _ =>
          match resolveMessage st msg with
          | none => .fatal []
          | some rm =>
              let pkt := Packet.msgPrivate msg
              if sendOk pkt then
                .ok st [Effect.ui (UiUpdate.message rm), Effect.send pkt]
              else .fatal [Effect.ui (UiUpdate.message rm), Effect.send pkt]
      | .privateChannel _ =>
          let pkt := Packet.privgrpMessage msg
          if sendOk pkt then .ok st [Effect.send pkt]
          else .fatal [Effect.send pkt]
      | .vicinity => .fatal []

/-- The `GroupAnnounce` branch of `chat_task`: unconditional append of the
announced channel to the registry. -/
def handleGroupAnnounce (st : ChatState) (ch : Channel) : ChatState :=
  { st with channels := st.channels ++ [ch] }

/-- The dedup predicate of the `MsgPrivate` branch of `chat_task`: does
the registered channel `c` equal `Tell(u)` for the same peer as the
channel `mch` of the message (false whenever either is not a `Tell`)? -/
def msgPrivDup (mch : Channel) (c : Channel) : Bool :=
  match c, mch with
  | .tell u, .tell v => u == v
  | _, _ => false

/-- The `MsgPrivate` branch of `chat_task`: resolve the message (panics if
the sender is unknown), emit the UI update, and append the channel of the
message unless a `Tell` for the same peer is already registered. -/
def handleMsgPrivate (st : ChatState) (m : Message) : OpResult :=
  match resolveMessage st m with
  | none => .fatal []
  | some rm =>
      let dup := st.channels.any (msgPrivDup m.channel)
      let chans := if dup then st.channels else st.channels ++ [m.channel]
      .ok { st with channels := chans } [Effect.ui (UiUpdate.message rm)]

/-- The `ClientLookup` branch of `chat_task`, state part: when the lookup
succeeded, install the identity in the cache and append `Tell(id)` to the
registry unconditionally; in both cases remove the pending lookup for the
returned name (the notify side is modelled in the task machine below). -/
def handleClientLookup (st : ChatState) (id : Nat) (name : String)
    (found : Bool) : ChatState :=
  let st1 :=
    if found then
      { st with user_lookup := bimapInsert id name st.user_lookup,
                channels := st.channels ++ [Channel.tell id] }
    else st
  { st1 with pending_lookups := pendingRemove name st1.pending_lookups }

/-- Global state seen by concurrent `lookup_user` tasks and the
reconciliation loop: the identity cache, the channel registry, the
pending-lookups map (name → `Notify` token), a fresh-token counter, and
the ordered trace of packets handed to the socket. -/
structure SysState where
  cache : List (Nat × String)
  channels : List Channel
  pending : List (String × Nat)
  nextTok : Nat
  trace : List Packet
deriving DecidableEq, Repr

/-- Control point of one spawned `lookup_user(name)` task. Each
constructor marks the code point right before the next lock-guarded
critical section or await of the source:
`start` — about to read `user_lookup`;
`checkPending` — cache missed, about to read `pending_lookups`;
`installing` — observed no pending entry, about to take the write lock,
create a fresh `Notify` and insert it;
`sending` — about to send the `ClientLookupPacket`;
`waiting` — suspended in `notify.notified().await` on the given token;
`woken` — released by `notify_waiters`, about to re-read the cache;
`done` — returned. -/
inductive TaskState where
  | start (name : String)
  | checkPending (name : String)
  | installing (name : String)
  | sending (name : String) (tok : Nat)
  | waiting (name : String) (tok : Nat)
  | woken (name : String)
  | done (res : Option Nat)
deriving DecidableEq, Repr

/-- One atomic step of a `lookup_user` task (one lock-guarded section or
one send of the source). A `waiting` task makes no step of its own — it is
released only by the event side; `done` is final. -/
def taskStep (s : SysState) : TaskState → SysState × TaskState
  | .start n =>
      match getByRight s.cache n with
      | some id => (s, .done (some id))
      | none => (s, .checkPending n)
  | .checkPending n =>
      match pendingGet s.pending n with
      | some t => (s, .waiting n t)
      | none => (s, .installing n)
  | .installing n =>
      ({ s with pending := pendingInsert n s.nextTok s.pending,
                nextTok := s.nextTok + 1 },
       .sending n s.nextTok)
  | .sending n t =>
      ({ s with trace := s.trace ++ [Packet.clientLookup n] }, .waiting n t)
  | .waiting n t => (s, .waiting n t)
  | .woken n => (s, .done (getByRight s.cache n))
  | .done r => (s, .done r)

/-- An inbound `ClientLookup` result event: id, name, and whether the
character exists. -/
structure LookupEv where
  character_id : Nat
  character_name : String
  found : Bool
deriving DecidableEq, Repr

/-- The `ClientLookup` branch of `chat_task` in the task model: on success
install the identity and append `Tell(id)` to the registry
(unconditionally); then remove the pending entry for the name and, if one
was present, fire its `Notify` (returned as the second component). -/
def procLookupEv (s : SysState) (ev : LookupEv) : SysState × Option Nat :=
  let s1 :=
    if ev.found then
      { s with cache := bimapInsert ev.character_id ev.character_name s.cache,
               channels := s.channels ++ [Channel.tell ev.character_id] }
    else s
  match pendingGet s1.pending ev.character_name with
  | some t => ({ s1 with pending := pendingRemove ev.character_name s1.pending }, some t)
  | none => (s1, none)

/-- `notify_waiters` on one `Notify` instance: every task suspended on
that token is released; tasks waiting on a different `Notify` stay
suspended. -/
def wake1 (tok : Nat) : TaskState → TaskState
  | .waiting n t => if t = tok then .woken n else .waiting n t
  | ts => ts

/-- Release all waiters of the fired `Notify`, if one was fired. -/
def wakeTasks (tok? : Option Nat) (tasks : List TaskState) : List TaskState :=
  match tok? with
  | none => tasks
  | some t => tasks.map (wake1 t)

/-- A configuration: the shared state plus the spawned lookup tasks. -/
structure Config where
  sys : SysState
  tasks : List TaskState
deriving DecidableEq, Repr

/-- A scheduler choice: run one atomic step of task `i`, or let the
reconciliation loop process an inbound lookup-result event. -/
inductive Choice where
  | task (i : Nat)
  | event (ev : LookupEv)
deriving DecidableEq, Repr

/-- One scheduled step of the whole system. -/
def stepC (c : Config) : Choice → Config
  | .task i =>
      match c.tasks[i]? with
      | some ts =>
          let p := taskStep c.sys ts
          { sys := p.1, tasks := c.tasks.set i p.2 }
      | none => c
  | .event ev =>
      let p := procLookupEv c.sys ev
      { sys := p.1, tasks := wakeTasks p.2 c.tasks }

/-- Run a schedule. -/
def run (c : Config) : List Choice → Config
  | [] => c
  | ch :: rest => run (stepC c ch) rest

/-- The number of `Tell` entries for peer `i` in the registry. -/
def tellCount (i : Nat) (chs : List Channel) : Nat :=
  chs.countP (isTell i)

/-- The registry invariant claimed by the spec: at most one `Tell` entry
per distinct peer id. -/
def TellInv (chs : List Channel) : Prop :=
  ∀ i, tellCount i chs ≤ 1

/-- The number of `Group` entries with id `i` in the registry. -/
def groupCount (i : Nat) (chs : List Channel) : Nat :=
  chs.countP (isGroupWithId i)

/-- Counting over an appended singleton. -/
lemma countP_append_singleton (p : Channel → Bool) (l : List Channel) (c : Channel) :
    (l ++ [c]).countP p = l.countP p + (if p c then 1 else 0) := by
  simp [List.countP_append, List.countP_cons]

/-- If the `send_tell` dedup check found no `Tell(i)`, there are zero
`Tell(i)` entries. -/
lemma hasTell_false_count (i : Nat) (l : List Channel) (h : hasTell i l = false) :
    tellCount i l = 0 := by
  rw [tellCount, List.countP_eq_zero]
  intro c hc
  exact (List.any_eq_false.mp h) c hc

/-- On a `Tell` message channel, the `MsgPrivate` dedup predicate is
exactly `isTell`. -/
lemma msgPrivDup_tell (v : Nat) (c : Channel) :
    msgPrivDup (Channel.tell v) c = isTell v c := by
  cases c <;> rfl

/-- On a non-`Tell` registered channel, no `Tell` predicate holds. -/
lemma isTell_non_tell (i : Nat) (c : Channel) (h : ∀ u, c ≠ Channel.tell u) :
    isTell i c = false := by
  cases c <;> first | rfl | exact absurd rfl (h _)

/-- Removing a key from the pending map makes its lookup fail. -/
lemma pendingGet_pendingRemove (l : List (String × Nat)) (n : String) :
    pendingGet (pendingRemove n l) n = none := by
  induction l with
  | nil => rfl
  | cons p rest ih =>
      obtain ⟨m, t⟩ := p
      by_cases h : m = n
      · simpa [pendingRemove, List.filter_cons, h] using ih
      · simpa [pendingRemove, List.filter_cons, h, pendingGet] using ih

/-- C6: calling `send_message` on a `Vicinity` resolved channel is a
programming-contract violation: the dispatch arm is `panic!("impossible")`,
a fatal outcome, and no packet is handed to the socket and no UI update is
emitted (the effect list of the fatal outcome is empty). -/
theorem sendMessage_vicinity_fatal (st : ChatState) (i : Nat) (nm text : String)
    (sendOk : Packet → Bool) :
    sendMessage st ⟨i, nm, ChannelType.vicinity⟩ text sendOk = .fatal [] := rfl

/-- C7: after name resolution, `invite`, `kick` and `leave` do nothing at
all when resolution returned `None` — state unchanged, no effect of any
kind (no packet, no UI update) — and when resolution returned `Some id`
they send exactly the protocol action keyed by the id: an invite packet by
id, a kick packet by id, and a part packet for `PrivateChannel(id)`. -/
theorem commands_after_resolution (st : ChatState) (id : Nat) (f : Packet → Bool) :
    inviteCont st none f = .ok st [] ∧
    kickCont st none f = .ok st [] ∧
    leaveCont st none f = .ok st [] ∧
    inviteCont st (some id) f = .ok st [Effect.send (Packet.outPrivgrpInvite id)] ∧
    kickCont st (some id) f = .ok st [Effect.send (Packet.outPrivgrpKick id)] ∧
    leaveCont st (some id) f
      = .ok st [Effect.send (Packet.privgrpPart (Channel.privateChannel id))] :=
  ⟨rfl, rfl, rfl, rfl, rfl, rfl⟩

/-- C3 counterexample: the `GroupAnnounce` branch appends unconditionally,
so two announcements for group id 1 leave two `Group` entries with id 1 in
the registry, refuting "a second announcement never creates a second
entry". -/
theorem group_announce_duplicate_entries :
    groupCount 1 (handleGroupAnnounce
      (handleGroupAnnounce ⟨[], [], [], 0, []⟩ (Channel.group 1 (some "A")))
      (Channel.group 1 none)).channels = 2 := by decide

/-- C3 amended: each group announcement for id `i` appends one more
`Group` entry with id `i` to the registry (the handler never
deduplicates); in particular a first announcement of a fresh id leaves one
entry and a second announcement for the same id creates a second entry. -/
theorem group_announce_appends (st : ChatState) (i : Nat) (nm : Option String) :
    groupCount i (handleGroupAnnounce st (Channel.group i nm)).channels
      = groupCount i st.channels + 1 := by
  simp [handleGroupAnnounce, groupCount, countP_append_singleton, isGroupWithId]

/-- C8 counterexample: a failed protocol send is not absorbed everywhere —
`send_message` to a private channel unwraps the send result, so a send
failure is a panic (fatal), not a completed operation. -/
theorem send_failure_panics :
    sendMessage ⟨[], [], [], 7, []⟩ ⟨5, "x", ChannelType.privateChannel⟩ "hi"
        (fun _ => false)
      = .fatal [Effect.send (Packet.privgrpMessage
          ⟨some 7, Channel.privateChannel 5, "hi", "\x00"⟩)] := by decide

/-- C8 amended: the sends of `send_tell`, `invite`, `kick` and `leave`
(and the lookup request send, which the task model issues without
consulting any outcome) are fire-and-forget — their results are identical
under any two send-outcome oracles — while each of the three sends of
`send_message` unwraps the result, so a failed send is a panic in every
dispatch arm: private-channel, group (with a `Group` of the id
registered, here found as `Group j gnm`), and tell (with the current user
and the peer in the identity cache, so the self-echo resolves). -/
theorem send_result_handling
    (st stG stT : ChatState) (r : Option Nat) (text nm sn pn : String)
    (f g : Packet → Bool) (i pid gid j : Nat) (gnm : Option String)
    (hf : stG.channels.find? (isGroupWithId gid) = some (Channel.group j gnm))
    (hs : getByLeft stT.user_lookup stT.current_user = some sn)
    (hp : getByLeft stT.user_lookup pid = some pn) :
    sendTellCont st r text f = sendTellCont st r text g ∧
    inviteCont st r f = inviteCont st r g ∧
    kickCont st r f = kickCont st r g ∧
    leaveCont st r f = leaveCont st r g ∧
    sendMessage st ⟨i, nm, ChannelType.privateChannel⟩ text (fun _ => false)
      = .fatal [Effect.send (Packet.privgrpMessage
          ⟨some st.current_user, Channel.privateChannel i, text, "\x00"⟩)] ∧
    sendMessage stG ⟨gid, nm, ChannelType.group⟩ text (fun _ => false)
      = .fatal [Effect.send (Packet.groupMessage
          ⟨some stG.current_user, Channel.group j gnm, text, "\x00"⟩)] ∧
    sendMessage stT ⟨pid, nm, ChannelType.tell⟩ text (fun _ => false)
      = .fatal [Effect.ui (UiUpdate.message ⟨some sn, ⟨pid, pn, ChannelType.tell⟩, text⟩),
          Effect.send (Packet.msgPrivate
            ⟨some stT.current_user, Channel.tell pid, text, "\x00"⟩)] := by
  refine ⟨rfl, rfl, rfl, rfl, rfl, ?_, ?_⟩
  · simp [sendMessage, hf]
  · simp [sendMessage, resolveMessage, resolveChannel, hs, hp]

/-- C8 amended witness: the theorem at concrete states — `Group 1 "Org"`
registered for the group arm, identities 7 ("Me") and 42 ("Bob") cached
for the tell arm — under the always-failing send oracle: all three
`send_message` arms end fatal after emitting their packet. -/
theorem send_result_handling_witness :
    [Channel.group 1 (some "Org")].find? (isGroupWithId 1)
      = some (Channel.group 1 (some "Org")) ∧
    getByLeft [(7, "Me"), (42, "Bob")] 7 = some "Me" ∧
    getByLeft [(7, "Me"), (42, "Bob")] 42 = some "Bob" ∧
    sendMessage ⟨[], [], [], 0, []⟩ ⟨5, "x", ChannelType.privateChannel⟩ "hi"
        (fun _ => false)
      = .fatal [Effect.send (Packet.privgrpMessage
          ⟨some 0, Channel.privateChannel 5, "hi", "\x00"⟩)] ∧
    sendMessage ⟨[Channel.group 1 (some "Org")], [], [], 7, []⟩
        ⟨1, "x", ChannelType.group⟩ "hi" (fun _ => false)
      = .fatal [Effect.send (Packet.groupMessage
          ⟨some 7, Channel.group 1 (some "Org"), "hi", "\x00"⟩)] ∧
    sendMessage ⟨[], [], [(7, "Me"), (42, "Bob")], 7, []⟩
        ⟨42, "x", ChannelType.tell⟩ "hi" (fun _ => false)
      = .fatal [Effect.ui (UiUpdate.message ⟨some "Me", ⟨42, "Bob", ChannelType.tell⟩, "hi"⟩),
          Effect.send (Packet.msgPrivate ⟨some 7, Channel.tell 42, "hi", "\x00"⟩)] := by
  have h := send_result_handling ⟨[], [], [], 0, []⟩
    ⟨[Channel.group 1 (some "Org")], [], [], 7, []⟩
    ⟨[], [], [(7, "Me"), (42, "Bob")], 7, []⟩
    none "hi" "x" "Me" "Bob" (fun _ => true) (fun _ => true)
    5 42 1 1 (some "Org") (by decide) (by decide) (by decide)
  exact ⟨by decide, by decide, by decide, h.2.2.2.2.1, h.2.2.2.2.2.1, h.2.2.2.2.2.2⟩

/-- C1: the single-flight guarantee is broken by a race in `lookup_user`.
The pending-map read (read lock) and the insert (write lock) are separate
critical sections, so two concurrent `resolve("Bob")` tasks can both
observe no pending entry, both install a `Notify` (the second overwriting
the first) and both send a `ClientLookupPacket`. This schedule produces
two outbound lookup requests for "Bob", and when the result event arrives
only the second task is released (it returns `some 99`) while the first
stays suspended forever on its orphaned `Notify` — so neither "exactly one
outbound lookup request" nor "all k calls return the same result" holds,
though both are clearly the intended single-flight behavior. -/
theorem lookup_single_flight_race :
    run ⟨⟨[], [], [], 0, []⟩, [TaskState.start "Bob", TaskState.start "Bob"]⟩
        [Choice.task 0, Choice.task 1, Choice.task 0, Choice.task 1,
         Choice.task 0, Choice.task 1, Choice.task 0, Choice.task 1,
         Choice.event ⟨99, "Bob", true⟩, Choice.task 1]
      = ⟨⟨[(99, "Bob")], [Channel.tell 99], [], 2,
          [Packet.clientLookup "Bob", Packet.clientLookup "Bob"]⟩,
         [TaskState.waiting "Bob" 0, TaskState.done (some 99)]⟩ := by decide

/-- C2 counterexample: the `ClientLookup` branch appends `Tell(id)` to the
registry unconditionally, so two lookup-result events for the same
character id leave two `Tell(99)` entries — the at-most-one-`Tell`-per-peer
invariant does not survive lookup-result handling. -/
theorem tell_duplicate_from_lookup_results :
    tellCount 99 (handleClientLookup
      (handleClientLookup ⟨[], [], [], 0, []⟩ 99 "Bob" true)
      99 "Bob" true).channels = 2 := by decide

/-- C2 amended: of the three paths that insert into the registry, the
`send_tell` path and the inbound private-message path deduplicate `Tell`
entries by peer id, so both preserve the at-most-one-`Tell`-per-peer
invariant; the lookup-result path appends unconditionally and can
duplicate (see the counterexample). -/
theorem tell_invariant_preserved (st : ChatState) (r : Option Nat) (text : String)
    (f : Packet → Bool) (m : Message) (stA stB : ChatState) (eA eB : List Effect)
    (hInv : TellInv st.channels)
    (hA : sendTellCont st r text f = .ok stA eA)
    (hB : handleMsgPrivate st m = .ok stB eB) :
    TellInv stA.channels ∧ TellInv stB.channels := by
  constructor
  · cases r with
    | none =>
        simp only [sendTellCont, OpResult.ok.injEq] at hA
        rw [← hA.1]
        exact hInv
    | some id =>
        simp only [sendTellCont] at hA
        cases hrm : resolveMessage st ⟨some st.current_user, Channel.tell id, text, "\x00"⟩ with
        | none => rw [hrm] at hA; cases hA
        | some rm =>
            rw [hrm] at hA
            simp only [OpResult.ok.injEq] at hA
            rw [← hA.1]
            by_cases hdup : hasTell id st.channels
            · simpa [hdup] using hInv
            · rw [eq_false_of_ne_true hdup]
              intro i
              simp only [if_neg Bool.false_ne_true, tellCount, countP_append_singleton]
              by_cases hi : isTell i (Channel.tell id) = true
              · have hiv : i = id := by
                  simp only [isTell, beq_iff_eq] at hi
                  exact hi.symm
                subst hiv
                have h0 : tellCount i st.channels = 0 :=
                  hasTell_false_count i st.channels (eq_false_of_ne_true hdup)
                simp only [tellCount] at h0
                simp [hi, h0]
              · have hInvi := hInv i
                simp only [tellCount] at hInvi
                simpa [hi] using hInvi
  · simp only [handleMsgPrivate] at hB
    cases hrm : resolveMessage st m with
    | none => rw [hrm] at hB; cases hB
    | some rm =>
        rw [hrm] at hB
        simp only [OpResult.ok.injEq] at hB
        rw [← hB.1]
        by_cases hdup : st.channels.any (msgPrivDup m.channel) = true
        · simpa [hdup] using hInv
        · rw [eq_false_of_ne_true hdup]
          intro i
          simp only [if_neg Bool.false_ne_true, tellCount, countP_append_singleton]
          cases hm : m.channel with
          | tell v =>
              rw [hm] at hdup
              by_cases hi : isTell i (Channel.tell v) = true
              · have hiv : i = v := by
                  simp only [isTell, beq_iff_eq] at hi
                  exact hi.symm
                subst hiv
                have hdup2 : hasTell i st.channels = false := by
                  have hfun : msgPrivDup (Channel.tell i) = isTell i :=
                    funext (msgPrivDup_tell i)
                  show st.channels.any (isTell i) = false
                  rw [← hfun]
                  exact eq_false_of_ne_true hdup
                have h0 : tellCount i st.channels = 0 :=
                  hasTell_false_count i st.channels hdup2
                simp only [tellCount] at h0
                simp [hi, h0]
              · have hInvi := hInv i
                simp only [tellCount] at hInvi
                simpa [hi] using hInvi
          | group j gnm =>
              have hInvi := hInv i
              simp only [tellCount] at hInvi
              simpa [isTell] using hInvi
          | privateChannel j =>
              have hInvi := hInv i
              simp only [tellCount] at hInvi
              simpa [isTell] using hInvi
          | vicinity =>
              have hInvi := hInv i
              simp only [tellCount] at hInvi
              simpa [isTell] using hInvi

/-- C2 witness: the amended theorem applied at a concrete state — an empty
registry with identities 7, 42 and 43 cached — with a tell sent to peer 42
and an inbound private message from peer 43; both resulting registries
satisfy the invariant. -/
theorem tell_invariant_preserved_witness :
    TellInv [Channel.tell 42] ∧ TellInv [Channel.tell 43] :=
  tell_invariant_preserved
    ⟨[], [], [(7, "a"), (42, "b"), (43, "c")], 7, []⟩ (some 42) "hi"
    (fun _ => true) ⟨some 43, Channel.tell 43, "yo", "\x00"⟩
    ⟨[Channel.tell 42], [], [(7, "a"), (42, "b"), (43, "c")], 7, []⟩
    ⟨[Channel.tell 43], [], [(7, "a"), (42, "b"), (43, "c")], 7, []⟩
    [Effect.ui (UiUpdate.message ⟨some "a", ⟨42, "b", ChannelType.tell⟩, "hi"⟩),
     Effect.send (Packet.msgPrivate ⟨some 7, Channel.tell 42, "hi", "\x00"⟩)]
    [Effect.ui (UiUpdate.message ⟨some "c", ⟨43, "c", ChannelType.tell⟩, "yo"⟩)]
    (fun _ => Nat.zero_le 1) (by decide) (by decide)

/-- C5: `send_tell` to a peer that resolved to `id`, with the current user
and the peer both in the identity cache, emits the UI self-echo first —
a `Message` update whose sender is the cached name of the Current User id,
whose channel is `Tell(id)`, and whose text is the given text — and hands
the outbound tell packet to the socket strictly after it (effect index 1);
it registers `Tell(id)` in the registry exactly when no `Tell` entry for
`id` is present. -/
theorem send_tell_self_echo (st : ChatState) (id : Nat) (text sn pn : String)
    (f : Packet → Bool)
    (hs : getByLeft st.user_lookup st.current_user = some sn)
    (hp : getByLeft st.user_lookup id = some pn) :
    sendTellCont st (some id) text f =
      .ok { st with channels := if hasTell id st.channels then st.channels
                                else st.channels ++ [Channel.tell id] }
        [Effect.ui (UiUpdate.message ⟨some sn, ⟨id, pn, ChannelType.tell⟩, text⟩),
         Effect.send (Packet.msgPrivate
           ⟨some st.current_user, Channel.tell id, text, "\x00"⟩)] := by
  simp [sendTellCont, resolveMessage, resolveChannel, hs, hp]

/-- C5 witness: the theorem at Current User 7 (cached as "Me"), peer 42
(cached as "Bob"), text "hi": the UI update precedes the packet send and
`Tell(42)` is registered. -/
theorem send_tell_self_echo_witness :
    getByLeft [(7, "Me"), (42, "Bob")] 7 = some "Me" ∧
    getByLeft [(7, "Me"), (42, "Bob")] 42 = some "Bob" ∧
    sendTellCont ⟨[], [], [(7, "Me"), (42, "Bob")], 7, []⟩ (some 42) "hi"
        (fun _ => true)
      = .ok ⟨[Channel.tell 42], [], [(7, "Me"), (42, "Bob")], 7, []⟩
          [Effect.ui (UiUpdate.message ⟨some "Me", ⟨42, "Bob", ChannelType.tell⟩, "hi"⟩),
           Effect.send (Packet.msgPrivate ⟨some 7, Channel.tell 42, "hi", "\x00"⟩)] := by
  refine ⟨by decide, by decide, ?_⟩
  have h := send_tell_self_echo ⟨[], [], [(7, "Me"), (42, "Bob")], 7, []⟩
    42 "hi" "Me" "Bob" (fun _ => true) (by decide) (by decide)
  simpa using h

/-- Scanning past a prefix without a matching `Group` yields the stored
name option of the first matching entry. -/
lemma firstGroupName_append (pre : List Channel) :
    ∀ (post : List Channel) (i : Nat) (nm : Option String),
      (∀ c ∈ pre, isGroupWithId i c = false) →
      firstGroupName (pre ++ Channel.group i nm :: post) i = nm := by
  induction pre with
  | nil =>
      intro post i nm _
      simp [firstGroupName]
  | cons c rest ih =>
      intro post i nm hpre
      have hc := hpre c (List.mem_cons_self c rest)
      have hrest : ∀ d ∈ rest, isGroupWithId i d = false :=
        fun d hd => hpre d (List.mem_cons_of_mem c hd)
      cases c with
      | group j gnm =>
          have hj : ¬j = i := by
            simpa [isGroupWithId] using hc
          simp only [List.cons_append, firstGroupName, if_neg hj]
          exact ih post i nm hrest
      | privateChannel j =>
          simpa [firstGroupName] using ih post i nm hrest
      | tell j =>
          simpa [firstGroupName] using ih post i nm hrest
      | vicinity =>
          simpa [firstGroupName] using ih post i nm hrest

/-- C9 counterexample: when a nameless `Group 1` entry precedes the named
`Group 1 "Org"` entry in the registry (reachable, since the announcement
handler appends unconditionally), resolving a nameless `Group 1` does not
return the previously registered name "Org": the `find_map` stops at the
first matching entry and `g.name.as_ref().unwrap()` panics (`none` in the
model), refuting the claim as stated. -/
theorem group_name_nameless_first_panics :
    resolveChannel
        ⟨[Channel.group 1 none, Channel.group 1 (some "Org")], [], [], 0, []⟩
        (Channel.group 1 none) = none := by decide

/-- C9 amended: resolving a `Group` channel value whose embedded name is
absent yields exactly the stored name option of the first registered
`Group` entry with the same id — the previously registered name when that
first entry carries one, and a panic at the name unwrap (`none` here) when
the first entry is itself nameless. -/
theorem group_name_from_history (st : ChatState) (i : Nat) (nm : Option String)
    (pre post : List Channel)
    (hch : st.channels = pre ++ Channel.group i nm :: post)
    (hpre : ∀ c ∈ pre, isGroupWithId i c = false) :
    resolveChannel st (Channel.group i none)
      = nm.map fun s => (⟨i, s, ChannelType.group⟩ : ResolvedChannel) := by
  have h := firstGroupName_append pre post i nm hpre
  rw [← hch] at h
  simp [resolveChannel, h]

/-- C9 witness: with registry `[Tell 5, Group 1 "Org"]` (no earlier
`Group 1` entry), resolving a nameless `Group 1` returns "Org". -/
theorem group_name_from_history_witness :
    resolveChannel ⟨[Channel.tell 5, Channel.group 1 (some "Org")], [], [], 0, []⟩
        (Channel.group 1 none)
      = some ⟨1, "Org", ChannelType.group⟩ :=
  group_name_from_history
    ⟨[Channel.tell 5, Channel.group 1 (some "Org")], [], [], 0, []⟩
    1 (some "Org") [Channel.tell 5] [] rfl (by decide)

/-- C10: `send_message` on a `Group` resolved channel panics (fatal, with
no packet handed to the socket) exactly when no `Group` with that id is
registered — the `.unwrap()` on the registry scan — and otherwise hands
the socket exactly one group-message packet carrying the registered
channel (with its stored name), the current user as sender, and the given
text. -/
theorem send_group_registered (st : ChatState) (rc : ResolvedChannel)
    (text : String) (f : Packet → Bool) (ch : Channel)
    (hk : rc.kind = ChannelType.group) :
    (st.channels.find? (isGroupWithId rc.id) = none →
       sendMessage st rc text f = .fatal []) ∧
    (st.channels.find? (isGroupWithId rc.id) = some ch →
       (sendMessage st rc text f).effects
         = [Effect.send (Packet.groupMessage
             ⟨some st.current_user, ch, text, "\x00"⟩)]) := by
  constructor
  · intro hf
    simp [sendMessage, hk, hf]
  · intro hf
    have hg := List.find?_some hf
    cases ch with
    | group j nm =>
        cases hfp : f (Packet.groupMessage
            ⟨some st.current_user, Channel.group j nm, text, "\x00"⟩) <;>
          simp [sendMessage, hk, hf, hfp, OpResult.effects]
    | privateChannel j => exact absurd hg (by simp [isGroupWithId])
    | tell j => exact absurd hg (by simp [isGroupWithId])
    | vicinity => exact absurd hg (by simp [isGroupWithId])

/-- C10 witness: with `Group 1 "Org"` registered, a group send by current
user 7 emits exactly the group-message packet for the registered channel;
the hypotheses of the theorem hold at this input. -/
theorem send_group_registered_witness :
    (⟨1, "Org", ChannelType.group⟩ : ResolvedChannel).kind = ChannelType.group ∧
    [Channel.group 1 (some "Org")].find? (isGroupWithId 1)
      = some (Channel.group 1 (some "Org")) ∧
    (sendMessage ⟨[Channel.group 1 (some "Org")], [], [], 7, []⟩
        ⟨1, "Org", ChannelType.group⟩ "hi" (fun _ => true)).effects
      = [Effect.send (Packet.groupMessage
          ⟨some 7, Channel.group 1 (some "Org"), "hi", "\x00"⟩)] := by
  refine ⟨rfl, by decide, ?_⟩
  have h := send_group_registered ⟨[Channel.group 1 (some "Org")], [], [], 7, []⟩
    ⟨1, "Org", ChannelType.group⟩ "hi" (fun _ => true)
    (Channel.group 1 (some "Org")) rfl
  exact h.2 (by decide)

/-- C4: a lookup-result event with `found = false` for a pending name
leaves the identity cache, the channel registry and the packet trace
unchanged, removes the pending lookup and fires its `Notify` (every task
waiting on that `Notify` is released, and a released waiter then returns
`None`, since the cache still has no entry for the name); no negative
cache entry exists, so a fresh `resolve` of the same name afterwards runs
through the miss path and sends a new outbound lookup request. -/
theorem lookup_notfound_releases (s : SysState) (n : String) (id t : Nat)
    (m : String)
    (hc : getByRight s.cache n = none)
    (hp : pendingGet s.pending n = some t) :
    (procLookupEv s ⟨id, n, false⟩).1.cache = s.cache ∧
    (procLookupEv s ⟨id, n, false⟩).1.channels = s.channels ∧
    (procLookupEv s ⟨id, n, false⟩).1.trace = s.trace ∧
    pendingGet (procLookupEv s ⟨id, n, false⟩).1.pending n = none ∧
    (procLookupEv s ⟨id, n, false⟩).2 = some t ∧
    wake1 t (TaskState.waiting m t) = TaskState.woken m ∧
    taskStep (procLookupEv s ⟨id, n, false⟩).1 (TaskState.woken n)
      = ((procLookupEv s ⟨id, n, false⟩).1, TaskState.done none) ∧
    (run ⟨(procLookupEv s ⟨id, n, false⟩).1, [TaskState.start n]⟩
        [Choice.task 0, Choice.task 0, Choice.task 0, Choice.task 0]).sys.trace
      = s.trace ++ [Packet.clientLookup n] := by
  have hproc : procLookupEv s ⟨id, n, false⟩
      = ({ s with pending := pendingRemove n s.pending }, some t) := by
    simp [procLookupEv, hp]
  rw [hproc]
  refine ⟨rfl, rfl, rfl, pendingGet_pendingRemove s.pending n, rfl, by simp [wake1], ?_, ?_⟩
  · simp [taskStep, hc]
  · simp [run, stepC, taskStep, hc, pendingGet_pendingRemove]

/-- C4 witness: cache `[(5, "Al")]`, registry `[Group 1 "G"]`, a pending
lookup for "Bob" with token 0; the not-found event for "Bob" changes
nothing but the pending map, releases the waiter with `None`, and a fresh
resolve of "Bob" sends a new lookup request. -/
theorem lookup_notfound_releases_witness :
    (procLookupEv ⟨[(5, "Al")], [Channel.group 1 (some "G")], [("Bob", 0)], 1, []⟩
        ⟨99, "Bob", false⟩).1.cache = [(5, "Al")] ∧
    (procLookupEv ⟨[(5, "Al")], [Channel.group 1 (some "G")], [("Bob", 0)], 1, []⟩
        ⟨99, "Bob", false⟩).1.channels = [Channel.group 1 (some "G")] ∧
    (procLookupEv ⟨[(5, "Al")], [Channel.group 1 (some "G")], [("Bob", 0)], 1, []⟩
        ⟨99, "Bob", false⟩).1.trace = [] ∧
    pendingGet (procLookupEv ⟨[(5, "Al")], [Channel.group 1 (some "G")],
        [("Bob", 0)], 1, []⟩ ⟨99, "Bob", false⟩).1.pending "Bob" = none ∧
    (procLookupEv ⟨[(5, "Al")], [Channel.group 1 (some "G")], [("Bob", 0)], 1, []⟩
        ⟨99, "Bob", false⟩).2 = some 0 ∧
    wake1 0 (TaskState.waiting "Bob" 0) = TaskState.woken "Bob" ∧
    taskStep (procLookupEv ⟨[(5, "Al")], [Channel.group 1 (some "G")],
          [("Bob", 0)], 1, []⟩ ⟨99, "Bob", false⟩).1 (TaskState.woken "Bob")
      = ((procLookupEv ⟨[(5, "Al")], [Channel.group 1 (some "G")],
          [("Bob", 0)], 1, []⟩ ⟨99, "Bob", false⟩).1, TaskState.done none) ∧
    (run ⟨(procLookupEv ⟨[(5, "Al")], [Channel.group 1 (some "G")],
          [("Bob", 0)], 1, []⟩ ⟨99, "Bob", false⟩).1, [TaskState.start "Bob"]⟩
        [Choice.task 0, Choice.task 0, Choice.task 0, Choice.task 0]).sys.trace
      = [] ++ [Packet.clientLookup "Bob"] :=
  lookup_notfound_releases
    ⟨[(5, "Al")], [Channel.group 1 (some "G")], [("Bob", 0)], 1, []⟩
    "Bob" 99 0 "Bob" (by decide) (by decide)

end AO
